import Mathlib

/-!
Verification of the `git-const` proc-macro crate (`src/lib.rs`) against its
natural-language specification.

The crate invokes the external `git` tool at build time and embeds its output
as a string-literal constant, or emits a `compile_error!` directive on failure.
We embed the crate shallowly: the external tool is an oracle
`Git : List String → SpawnResult`; `run_git`, `compile_error`, `git_hash` and
`git_short_hash` are translated directly from `src/lib.rs`. Every
`.parse().expect(..)` in the source can abort the macro when the formatted
text fails to lex, so a macro's outcome is a `MacroOut`: either a formed
token stream (represented by its code text) or the propagated abort. The
host lexer is modelled by `lexChars`/`lexStrBody`: a double-quoted string
literal with backslash escapes, in which a bare carriage return is a lex
error, surrounded by self-delimiting plain characters.
-/

/-- Captured result of a finished child process: exit-status success flag,
optional exit code, and raw stdout/stderr bytes (each byte a `Nat < 256`).
Mirrors Rust's `std::process::Output`. -/
structure ProcessOutput where
  success : Bool
  code : Option Int
  stdout : List Nat
  stderr : List Nat
deriving Repr, DecidableEq

/-- Result of attempting to spawn the external tool: either a finished
process, or a spawn error carrying the io-error text. -/
inductive SpawnResult where
  | ok : ProcessOutput → SpawnResult
  | err : String → SpawnResult
deriving Repr, DecidableEq

/-- The external `git` tool, as an oracle from the argument list to the
spawn result. The crate never consults anything else about the world. -/
def Git : Type := List String → SpawnResult

/-- Outcome of one macro expansion (or of `compile_error`): a successfully
parsed token stream, represented by the code text it was parsed from, or
the abort raised by a failed `.parse().expect(..)`, carrying the `.expect`
message of the failing call site. -/
inductive MacroOut where
  | tokens : String → MacroOut
  | panic : String → MacroOut
deriving Repr, DecidableEq

/-- Did the expansion abort in a failed `.expect`? -/
def MacroOut.isPanic : MacroOut → Bool
  | .panic _ => true
  | .tokens _ => false

/-- Is `b` a UTF-8 continuation byte (`0x80..=0xBF`)? -/
def utf8Cont (b : Nat) : Bool := 0x80 ≤ b && b ≤ 0xBF

/-- UTF-8 decoder (the standard encoding: no overlongs, no surrogates,
max `U+10FFFF`), modelling Rust's `String::from_utf8` validation. Returns
`none` exactly on invalid input. -/
def decodeUtf8 : List Nat → Option (List Char)
  | [] => some []
  | b1 :: rest =>
    if b1 < 0x80 then
      (decodeUtf8 rest).map (fun cs => Char.ofNat b1 :: cs)
    else if 0xC2 ≤ b1 && b1 ≤ 0xDF then
      match rest with
      | b2 :: rest2 =>
        if utf8Cont b2 then
          (decodeUtf8 rest2).map (fun cs => Char.ofNat ((b1 - 0xC0) * 0x40 + (b2 - 0x80)) :: cs)
        else none
      | [] => none
    else if 0xE0 ≤ b1 && b1 ≤ 0xEF then
      match rest with
      | b2 :: b3 :: rest3 =>
        if (if b1 = 0xE0 then 0xA0 ≤ b2 && b2 ≤ 0xBF
            else if b1 = 0xED then 0x80 ≤ b2 && b2 ≤ 0x9F
            else utf8Cont b2) && utf8Cont b3 then
          (decodeUtf8 rest3).map (fun cs =>
            Char.ofNat ((b1 - 0xE0) * 0x1000 + (b2 - 0x80) * 0x40 + (b3 - 0x80)) :: cs)
        else none
      | _ => none
    else if 0xF0 ≤ b1 && b1 ≤ 0xF4 then
      match rest with
      | b2 :: b3 :: b4 :: rest4 =>
        if (if b1 = 0xF0 then 0x90 ≤ b2 && b2 ≤ 0xBF
            else if b1 = 0xF4 then 0x80 ≤ b2 && b2 ≤ 0x8F
            else utf8Cont b2) && utf8Cont b3 && utf8Cont b4 then
          (decodeUtf8 rest4).map (fun cs =>
            Char.ofNat ((b1 - 0xF0) * 0x40000 + (b2 - 0x80) * 0x1000
              + (b3 - 0x80) * 0x40 + (b4 - 0x80)) :: cs)
        else none
      | _ => none
    else none

/-- Decode bytes to a `String` (Rust's `String::from_utf8`). -/
def decodeStr (l : List Nat) : Option String := (decodeUtf8 l).map String.mk

/-- Length of the longest valid UTF-8 prefix ending at a character boundary
before the first invalid sequence (Rust's `Utf8Error::valid_up_to`). -/
def utf8ValidUpTo : List Nat → Nat
  | [] => 0
  | b1 :: rest =>
    if b1 < 0x80 then 1 + utf8ValidUpTo rest
    else if 0xC2 ≤ b1 && b1 ≤ 0xDF then
      match rest with
      | b2 :: rest2 => if utf8Cont b2 then 2 + utf8ValidUpTo rest2 else 0
      | [] => 0
    else if 0xE0 ≤ b1 && b1 ≤ 0xEF then
      match rest with
      | b2 :: b3 :: rest3 =>
        if (if b1 = 0xE0 then 0xA0 ≤ b2 && b2 ≤ 0xBF
            else if b1 = 0xED then 0x80 ≤ b2 && b2 ≤ 0x9F
            else utf8Cont b2) && utf8Cont b3 then 3 + utf8ValidUpTo rest3
        else 0
      | _ => 0
    else if 0xF0 ≤ b1 && b1 ≤ 0xF4 then
      match rest with
      | b2 :: b3 :: b4 :: rest4 =>
        if (if b1 = 0xF0 then 0x90 ≤ b2 && b2 ≤ 0xBF
            else if b1 = 0xF4 then 0x80 ≤ b2 && b2 ≤ 0x8F
            else utf8Cont b2) && utf8Cont b3 && utf8Cont b4 then 4 + utf8ValidUpTo rest4
        else 0
      | _ => 0
    else 0

/-- Modelled from the spec: the text of the decoding error shown in the
diagnostic (`"git output is not valid utf-8: {error}"`). The `{error}`
display comes from the host standard library, which is outside this
repository; the spec only requires the diagnostic to name the decoding
problem, so we model it as naming the index where validity ends. -/
def utf8ErrorText (l : List Nat) : String :=
  "invalid utf-8 sequence from index " ++ toString (utf8ValidUpTo l)

/-- Whitespace as recognised by `str::trim`: the Unicode `White_Space`
characters that Rust's `char::is_whitespace` accepts. -/
def isWhite (c : Char) : Bool :=
  c = '\t' || c = '\n' || c = Char.ofNat 0x0B || c = Char.ofNat 0x0C || c = '\r'
  || c = ' ' || c = Char.ofNat 0x85 || c = Char.ofNat 0xA0 || c = Char.ofNat 0x1680
  || (0x2000 ≤ c.toNat && c.toNat ≤ 0x200A)
  || c = Char.ofNat 0x2028 || c = Char.ofNat 0x2029 || c = Char.ofNat 0x202F
  || c = Char.ofNat 0x205F || c = Char.ofNat 0x3000

/-- Rust's `str::trim`: remove leading and trailing whitespace. -/
def strTrim (s : String) : String :=
  String.mk (((s.data.dropWhile isWhite).reverse.dropWhile isWhite).reverse)

/-!
Host-lexer model. `compile_error` and both entry-point success paths hand
their formatted text to `TokenStream::from_str` via `.parse().expect(..)`.
We model the grammar fragment those texts inhabit: double-quoted string
literals with backslash escapes — in which a bare carriage return (U+000D)
is a lex error, as in rustc, which rejects a bare CR in a string literal —
surrounded by plain characters treated as self-delimiting tokens. That
surrounding treatment is exact for the fixed template text these call sites
produce (`compile_error!(`, `)` and the wrapping quotes); delimiter
balancing contributed by message content that has already broken out of its
literal is not tracked, and no CRLF normalization is applied (the lexer
here receives an in-memory string, not a source file).
-/

/-- One backslash escape inside a string literal (`\n`, `\t`, `\r`, `\\`,
`\"`, `\0`); other escapes are rejected by the lexer. -/
def unescapeChar (c : Char) : Option Char :=
  if c = 'n' then some '\n'
  else if c = 't' then some '\t'
  else if c = 'r' then some '\r'
  else if c = '\\' then some '\\'
  else if c = '"' then some '"'
  else if c = '0' then some (Char.ofNat 0)
  else none

/-- Lex the body of a string literal after its opening quote: returns the
unescaped content together with the input remaining after the closing
quote, or `none` on a lex error (unterminated literal, bad escape, bare
carriage return). -/
def lexStrBody : List Char → Option (List Char × List Char)
  | [] => none
  | c :: rest =>
    if c = '"' then some ([], rest)
    else if c = '\\' then
      match rest with
      | c2 :: rest2 =>
        match unescapeChar c2 with
        | some u => (lexStrBody rest2).map (fun p => (u :: p.1, p.2))
        | none => none
      | [] => none
    else if c = '\r' then none
    else (lexStrBody rest).map (fun p => (c :: p.1, p.2))

/-- Lex a whole text, tracking whether we are inside a string literal:
`true` exactly when the text lexes without error (every literal terminated,
escapes valid, no bare carriage return). This is the success condition of
`TokenStream::from_str` on the fragment described above. -/
def lexChars : List Char → Bool → Bool
  | [], inLit => !inLit
  | c :: rest, true =>
    if c = '"' then lexChars rest false
    else if c = '\\' then
      match rest with
      | c2 :: rest2 => if (unescapeChar c2).isSome then lexChars rest2 true else false
      | [] => false
    else if c = '\r' then false
    else lexChars rest true
  | c :: rest, false =>
    if c = '"' then lexChars rest true
    else if c = '\r' then false
    else if c = '\\' then false
    else lexChars rest false

/-- Does the code text lex successfully as a token stream? -/
def lexOk (s : String) : Bool := lexChars s.data false

/-- Strip an expected literal text from the front of the input; `none` when
the input does not start with it. -/
def chopLit : List Char → List Char → Option (List Char)
  | [], l => some l
  | _ :: _, [] => none
  | p :: ps, c :: cs => if c = p then chopLit ps cs else none

/-- Parse a produced `compile_error!("...")` directive text back: succeeds
with the message exactly when the directive's own syntax is intact, i.e.
the whole text is `compile_error!(` followed by one well-formed string
literal and `)`. -/
def parseDirective (s : String) : Option String :=
  match chopLit ("compile_error!(\"").data s.data with
  | some rest =>
    match lexStrBody rest with
    | some (body, rest2) => if rest2 = [')'] then some (String.mk body) else none
    | none => none
  | none => none

/-- Parse a success-path output text back: succeeds with the constant's
content exactly when the whole text is one well-formed quoted string
literal. -/
def parseQuotedLit (s : String) : Option String :=
  match s.data with
  | c :: rest =>
    if c = '"' then
      match lexStrBody rest with
      | some (body, rest2) => if rest2 = [] then some (String.mk body) else none
      | none => none
    else none
  | [] => none

/-- The text built by `format!("compile_error!(\"{args}\")")` at
`src/lib.rs` line 32, before it is handed to `.parse()`. No escaping is
applied to `args`. -/
def directiveText (args : String) : String :=
  "compile_error!(\"" ++ args ++ "\")"

/-- `fn compile_error(args) -> TokenStream` from `src/lib.rs` lines 29-33:
formats the directive text and parses it, aborting with the `.expect`
message `"To generate compile error"` when the text fails to lex. -/
def compile_error (args : String) : MacroOut :=
  if lexOk (directiveText args) then .tokens (directiveText args)
  else .panic "To generate compile error"

/-- `fn run_git(args) -> Result<String, TokenStream>` from `src/lib.rs`
lines 36-51, with the external tool as the oracle `git`. A `.error e` with
`e = .tokens _` is the source's `Err(TokenStream)`; `.error (.panic _)`
records that the abort raised inside `compile_error` escaped `run_git`. -/
def run_git (git : Git) (args : List String) : Except MacroOut String :=
  match git args with
  | .ok output =>
    match output.success with
    | true =>
      match decodeStr output.stdout with
      | some s => .ok s
      | none => .error (compile_error ("git output is not valid utf-8: " ++ utf8ErrorText output.stdout))
    | false =>
      let status := output.code.getD 1
      let stderr := (decodeStr output.stderr).getD "<invalid utf-8>"
      .error (compile_error ("git failed with status " ++ toString status ++ ":\n " ++ stderr))
  | .err error => .error (compile_error ("git execution error: " ++ error))

/-- `pub fn git_hash(input: TokenStream) -> TokenStream` from `src/lib.rs`
lines 58-72. `input` is the stringified token stream. On success the text
`format!("\"{output}\"")` is parsed, aborting with the `.expect` message
`"generate hash string"` when it fails to lex; a `run_git` failure is
returned as is (including an abort that was raised inside it). -/
def git_hash (git : Git) (input : String) : MacroOut :=
  let revision := if strTrim input = "" then "HEAD" else strTrim input
  match run_git git ["rev-parse", revision] with
  | .ok output =>
    if lexOk ("\"" ++ strTrim output ++ "\"") then .tokens ("\"" ++ strTrim output ++ "\"")
    else .panic "generate hash string"
  | .error error => error

/-- `pub fn git_short_hash(input: TokenStream) -> TokenStream` from
`src/lib.rs` lines 79-93. -/
def git_short_hash (git : Git) (input : String) : MacroOut :=
  let revision := if strTrim input = "" then "HEAD" else strTrim input
  match run_git git ["rev-parse", "--short", revision] with
  | .ok output =>
    if lexOk ("\"" ++ strTrim output ++ "\"") then .tokens ("\"" ++ strTrim output ++ "\"")
    else .panic "generate hash string"
  | .error error => error

/-!
Concrete oracles used to instantiate the theorems below.
-/

/-- Oracle answering every invocation with exit 0 and stdout `"abc\n"`. -/
def gitStub : Git := fun _ => .ok ⟨true, some 0, [0x61, 0x62, 0x63, 0x0A], []⟩

/-- Oracle equal to `gitStub` on every git invocation but defined by a
different term (answers `["other"]` differently). -/
def gitStubAlt : Git := fun args =>
  if args = ["other"] then .err "other"
  else .ok ⟨true, some 0, [0x61, 0x62, 0x63, 0x0A], []⟩

/-- Oracle extensionally equal to `gitStub`, written as a different term. -/
def gitStubEta : Git := fun _ => .ok ⟨true, some 0, [0x61, 0x62, 0x63] ++ [0x0A], []⟩

/-- Oracle whose spawn always fails with io-error text `"boom"`. -/
def gitSpawnFail : Git := fun _ => .err "boom"

/-- Oracle that succeeds with stdout consisting of a single newline. -/
def gitNewlineOnly : Git := fun _ => .ok ⟨true, some 0, [0x0A], []⟩

/-- Oracle that succeeds with stdout `"x\"y\n"` — valid UTF-8 containing a
double quote. -/
def gitQuoteOut : Git := fun _ => .ok ⟨true, some 0, [0x78, 0x22, 0x79, 0x0A], []⟩

/-- Oracle that succeeds with stdout `"a\rb\n"` — valid UTF-8 with an
interior bare carriage return. -/
def gitCrOut : Git := fun _ => .ok ⟨true, some 0, [0x61, 0x0D, 0x62, 0x0A], []⟩

/-- Oracle whose process exits with status 1 and stderr `"a\"b"` — valid
UTF-8 containing a double quote. -/
def gitBadStderr : Git := fun _ => .ok ⟨false, some 1, [], [0x61, 0x22, 0x62]⟩

/-- Oracle answering the `--short` invocation with `"ab\n"` and every other
invocation with `"abcdef\n"`. -/
def gitHashPair : Git := fun args =>
  if args = ["rev-parse", "--short", "HEAD"] then .ok ⟨true, some 0, [0x61, 0x62, 0x0A], []⟩
  else .ok ⟨true, some 0, [0x61, 0x62, 0x63, 0x64, 0x65, 0x66, 0x0A], []⟩

/-!
Theorems.
-/

/-- Helper: `run_git` succeeds exactly on spawned, zero-exit, valid-UTF-8
stdout, returning the decoded stdout. -/
theorem run_git_ok_iff (g : Git) (args : List String) (s : String) :
    run_git g args = .ok s ↔
      ∃ out, g args = .ok out ∧ out.success = true ∧ decodeStr out.stdout = some s := by
  cases hg : g args with
  | err e => unfold run_git; rw [hg]; simp
  | ok out =>
    cases hs : out.success with
    | false => unfold run_git; rw [hg]; simp [hs]
    | true =>
      cases hd : decodeStr out.stdout with
      | none => unfold run_git; rw [hg]; simp [hs, hd]
      | some s2 =>
        unfold run_git
        rw [hg]
        simp only [hs, hd]
        constructor
        · intro h
          injection h with h
          subst h
          exact ⟨out, rfl, hs, hd⟩
        · rintro ⟨o, ho, hos, hod⟩
          injection ho with ho
          subst ho
          rw [hd] at hod
          injection hod with hod
          subst hod
          rfl

/-- Helper: every error produced by `run_git` is `compile_error` applied to
some message. -/
theorem run_git_error_shape (g : Git) (args : List String) (e : MacroOut)
    (h : run_git g args = .error e) : ∃ m, e = compile_error m := by
  cases hg : g args with
  | err e2 =>
    unfold run_git at h
    rw [hg] at h
    injection h with h
    exact ⟨_, h.symm⟩
  | ok out =>
    cases hs : out.success with
    | false =>
      unfold run_git at h
      rw [hg] at h
      simp only [hs] at h
      injection h with h
      exact ⟨_, h.symm⟩
    | true =>
      cases hd : decodeStr out.stdout with
      | none =>
        unfold run_git at h
        rw [hg] at h
        simp only [hs, hd] at h
        injection h with h
        exact ⟨_, h.symm⟩
      | some s2 =>
        unfold run_git at h
        rw [hg] at h
        simp only [hs, hd] at h
        exact absurd h (by simp)

/-- Helper: the char list of a directive text starts with `'c'`. -/
theorem directiveText_data (m : String) :
    (directiveText m).data = 'c' :: ("ompile_error!(\"".data ++ m.data ++ "\")".data) := by
  show (("compile_error!(\"" ++ m) ++ "\")").data = _
  rw [String.data_append, String.data_append]
  rw [show ("compile_error!(\"").data = 'c' :: ("ompile_error!(\"").data from rfl]
  simp

/-- Helper: the char list of the emitted literal starts with `'"'`. -/
theorem quoted_lit_data (t : String) :
    ("\"" ++ t ++ "\"").data = '"' :: (t.data ++ ['"']) := by
  rw [String.data_append, String.data_append]
  rw [show ("\"").data = ['"'] from rfl]
  simp

/-- Helper: a plain character outside a literal is consumed as one token. -/
theorem lexChars_plain (c : Char) (l : List Char)
    (hq : c ≠ '"') (hr : c ≠ '\r') (hb : c ≠ '\\') :
    lexChars (c :: l) false = lexChars l false := by
  rw [lexChars.eq_def]
  simp [hq, hr, hb]

/-- Helper: a quote outside a literal opens one. -/
theorem lexChars_openQuote (l : List Char) :
    lexChars ('"' :: l) false = lexChars l true := by
  rw [lexChars.eq_def]
  simp

/-- Helper: a run of plain characters outside literals lexes transparently. -/
theorem lexChars_append_plain (p X : List Char)
    (h : ∀ c ∈ p, c ≠ '"' ∧ c ≠ '\r' ∧ c ≠ '\\') :
    lexChars (p ++ X) false = lexChars X false := by
  induction p with
  | nil => rfl
  | cons c cs ih =>
    have hc := h c (List.mem_cons_self c cs)
    rw [List.cons_append, lexChars_plain c _ hc.1 hc.2.1 hc.2.2]
    exact ih (fun d hd => h d (List.mem_cons_of_mem c hd))

/-- Helper: a literal body free of quotes, backslashes and carriage returns
lexes through to its closing quote. -/
theorem lexChars_lit_clean (t rest : List Char)
    (h : ∀ c ∈ t, c ≠ '"' ∧ c ≠ '\\' ∧ c ≠ '\r') :
    lexChars (t ++ '"' :: rest) true = lexChars rest false := by
  induction t with
  | nil =>
    show lexChars ('"' :: rest) true = lexChars rest false
    rw [lexChars.eq_def]
    simp
  | cons c cs ih =>
    have hc := h c (List.mem_cons_self c cs)
    show lexChars (c :: (cs ++ '"' :: rest)) true = lexChars rest false
    rw [lexChars.eq_def]
    simp only [if_neg hc.1, if_neg hc.2.1, if_neg hc.2.2]
    exact ih (fun d hd => h d (List.mem_cons_of_mem c hd))

/-- Helper: a quoted literal with clean content lexes. -/
theorem lexOk_quoted_clean (t : String)
    (h : ∀ c ∈ t.data, c ≠ '"' ∧ c ≠ '\\' ∧ c ≠ '\r') :
    lexOk ("\"" ++ t ++ "\"") = true := by
  unfold lexOk
  rw [quoted_lit_data, lexChars_openQuote, lexChars_lit_clean t.data [] h]
  rfl

/-- Helper: the directive text for a clean message lexes. -/
theorem lexOk_directive_clean (m : String)
    (h : ∀ c ∈ m.data, c ≠ '"' ∧ c ≠ '\\' ∧ c ≠ '\r') :
    lexOk (directiveText m) = true := by
  unfold lexOk directiveText
  rw [String.data_append, String.data_append]
  rw [show ("compile_error!(\"" : String).data
      = ("compile_error!(" : String).data ++ ['"'] from rfl]
  rw [show ("\")" : String).data = '"' :: [')'] from rfl]
  rw [List.append_assoc, List.append_assoc]
  rw [lexChars_append_plain ("compile_error!(" : String).data _ (by decide)]
  rw [List.singleton_append, lexChars_openQuote, lexChars_lit_clean m.data [')'] h]
  rfl

/-- Helper: `compile_error` forms the directive for a clean message. -/
theorem compile_error_clean (m : String)
    (h : ∀ c ∈ m.data, c ≠ '"' ∧ c ≠ '\\' ∧ c ≠ '\r') :
    compile_error m = .tokens (directiveText m) := by
  unfold compile_error
  rw [if_pos (lexOk_directive_clean m h)]

/-- Helper: `compile_error` never yields a quoted-literal token stream. -/
theorem compile_error_ne_tokens_lit (m s : String) :
    compile_error m ≠ .tokens ("\"" ++ s ++ "\"") := by
  unfold compile_error
  by_cases hl : lexOk (directiveText m) = true
  · rw [if_pos hl]
    intro h
    injection h with h
    have h2 := congrArg String.data h
    rw [directiveText_data, quoted_lit_data] at h2
    injection h2 with h3
    exact absurd h3 (by decide)
  · rw [if_neg hl]
    intro h
    exact MacroOut.noConfusion h

/-- Helper: `run_git` on a spawned, zero-exit, valid-UTF-8 result. -/
theorem run_git_ok_val (g : Git) (args : List String) (out : ProcessOutput) (s : String)
    (hg : g args = .ok out) (hs : out.success = true) (hd : decodeStr out.stdout = some s) :
    run_git g args = .ok s :=
  (run_git_ok_iff g args s).mpr ⟨out, hg, hs, hd⟩

/-- Helper: `git_hash` unfolded to its match on `run_git`. -/
theorem git_hash_eq (g : Git) (input : String) :
    git_hash g input =
      match run_git g ["rev-parse", if strTrim input = "" then "HEAD" else strTrim input] with
      | .ok output =>
        if lexOk ("\"" ++ strTrim output ++ "\"") then .tokens ("\"" ++ strTrim output ++ "\"")
        else .panic "generate hash string"
      | .error error => error := rfl

/-- Helper: `git_short_hash` unfolded to its match on `run_git`. -/
theorem git_short_hash_eq (g : Git) (input : String) :
    git_short_hash g input =
      match run_git g ["rev-parse", "--short", if strTrim input = "" then "HEAD" else strTrim input] with
      | .ok output =>
        if lexOk ("\"" ++ strTrim output ++ "\"") then .tokens ("\"" ++ strTrim output ++ "\"")
        else .panic "generate hash string"
      | .error error => error := rfl

/-- Helper: on a clean successful output the full-hash expansion forms the
quoted literal. -/
theorem git_hash_tokens (g : Git) (input : String) (out : ProcessOutput) (s : String)
    (hg : g ["rev-parse", if strTrim input = "" then "HEAD" else strTrim input] = .ok out)
    (hs : out.success = true) (hd : decodeStr out.stdout = some s)
    (hc : ∀ c ∈ (strTrim s).data, c ≠ '"' ∧ c ≠ '\\' ∧ c ≠ '\r') :
    git_hash g input = .tokens ("\"" ++ strTrim s ++ "\"") := by
  rw [git_hash_eq, run_git_ok_val g _ out s hg hs hd]
  simp [lexOk_quoted_clean (strTrim s) hc]

/-- Helper: on a clean successful output the short-hash expansion forms the
quoted literal. -/
theorem git_short_hash_tokens (g : Git) (input : String) (out : ProcessOutput) (s : String)
    (hg : g ["rev-parse", "--short", if strTrim input = "" then "HEAD" else strTrim input] = .ok out)
    (hs : out.success = true) (hd : decodeStr out.stdout = some s)
    (hc : ∀ c ∈ (strTrim s).data, c ≠ '"' ∧ c ≠ '\\' ∧ c ≠ '\r') :
    git_short_hash g input = .tokens ("\"" ++ strTrim s ++ "\"") := by
  rw [git_short_hash_eq, run_git_ok_val g _ out s hg hs hd]
  simp [lexOk_quoted_clean (strTrim s) hc]

/-- Helper: a string-literal body free of quotes, backslashes and carriage
returns lexes to itself, up to the closing quote. -/
theorem lexStrBody_clean (t : List Char) (rest : List Char)
    (h : ∀ c ∈ t, c ≠ '"' ∧ c ≠ '\\' ∧ c ≠ '\r') :
    lexStrBody (t ++ '"' :: rest) = some (t, rest) := by
  induction t with
  | nil =>
    show lexStrBody ('"' :: rest) = some ([], rest)
    rw [lexStrBody.eq_def]
    rfl
  | cons c cs ih =>
    have hc := h c (List.mem_cons_self c cs)
    have ih2 := ih (fun d hd => h d (List.mem_cons_of_mem c hd))
    show lexStrBody (c :: (cs ++ '"' :: rest)) = some (c :: cs, rest)
    rw [lexStrBody.eq_def]
    simp only [if_neg hc.1, if_neg hc.2.1, if_neg hc.2.2, ih2, Option.map_some]
    rfl

/-- Helper: stripping an expected literal from the front succeeds on it. -/
theorem chopLit_append (p l : List Char) : chopLit p (p ++ l) = some l := by
  induction p with
  | nil => simp [chopLit]
  | cons c cs ih => simp [chopLit, ih]

/-- Helper: the directive text round-trips for clean messages. -/
theorem parseDirective_clean (m : String)
    (h : ∀ c ∈ m.data, c ≠ '"' ∧ c ≠ '\\' ∧ c ≠ '\r') :
    parseDirective (directiveText m) = some m := by
  unfold parseDirective directiveText
  rw [String.data_append, String.data_append, List.append_assoc]
  rw [show (("\")" : String)).data = '"' :: [')'] from rfl]
  rw [chopLit_append]
  simp only [lexStrBody_clean m.data [')'] h]
  simp

/-- Helper: a quoted literal with clean content parses back to the content. -/
theorem parseQuotedLit_clean (t : String)
    (h : ∀ c ∈ t.data, c ≠ '"' ∧ c ≠ '\\' ∧ c ≠ '\r') :
    parseQuotedLit ("\"" ++ t ++ "\"") = some t := by
  unfold parseQuotedLit
  rw [quoted_lit_data]
  rw [show (['"'] : List Char) = '"' :: [] from rfl]
  simp only [lexStrBody_clean t.data [] h]
  simp

/-- C1 counterexample: the git process spawns, exits zero and produces the
valid UTF-8 stdout `"x\"y\n"`, yet the entry point does not emit a
string-literal constant: the formatted text `"x"y"` fails to lex and the
expansion aborts in the `.expect` at `src/lib.rs` line 71. -/
theorem C1_counterexample :
    decodeStr [0x78, 0x22, 0x79, 0x0A] = some "x\"y\n" ∧
    git_hash gitQuoteOut "" = MacroOut.panic "generate hash string" := by
  exact ⟨rfl, rfl⟩

/-- C1 (amended): whenever the git process spawns, exits with status zero,
and produces valid UTF-8 stdout whose trimmed text contains no double
quote, backslash or carriage return, each entry point emits exactly the
quoted string-literal constant whose content is that stdout decoded and
trimmed of leading and trailing whitespace; for other successful outputs
the final parse can abort instead. -/
theorem C1_success_emits_trimmed_stdout_literal (g : Git) (input : String)
    (out outS : ProcessOutput) (s sS : String)
    (hF : g ["rev-parse", if strTrim input = "" then "HEAD" else strTrim input] = .ok out)
    (hFs : out.success = true) (hFd : decodeStr out.stdout = some s)
    (hFc : ∀ c ∈ (strTrim s).data, c ≠ '"' ∧ c ≠ '\\' ∧ c ≠ '\r')
    (hS : g ["rev-parse", "--short", if strTrim input = "" then "HEAD" else strTrim input] = .ok outS)
    (hSs : outS.success = true) (hSd : decodeStr outS.stdout = some sS)
    (hSc : ∀ c ∈ (strTrim sS).data, c ≠ '"' ∧ c ≠ '\\' ∧ c ≠ '\r') :
    git_hash g input = .tokens ("\"" ++ strTrim s ++ "\"") ∧
    parseQuotedLit ("\"" ++ strTrim s ++ "\"") = some (strTrim s) ∧
    git_short_hash g input = .tokens ("\"" ++ strTrim sS ++ "\"") ∧
    parseQuotedLit ("\"" ++ strTrim sS ++ "\"") = some (strTrim sS) :=
  ⟨git_hash_tokens g input out s hF hFs hFd hFc,
   parseQuotedLit_clean _ hFc,
   git_short_hash_tokens g input outS sS hS hSs hSd hSc,
   parseQuotedLit_clean _ hSc⟩

/-- C1 witness: a concrete oracle printing `"abc\n"` yields the constant
`"abc"` from both entry points. -/
theorem C1_witness :
    git_hash gitStub "" = .tokens ("\"" ++ strTrim "abc\n" ++ "\"") ∧
    parseQuotedLit ("\"" ++ strTrim "abc\n" ++ "\"") = some (strTrim "abc\n") ∧
    git_short_hash gitStub "" = .tokens ("\"" ++ strTrim "abc\n" ++ "\"") ∧
    parseQuotedLit ("\"" ++ strTrim "abc\n" ++ "\"") = some (strTrim "abc\n") :=
  C1_success_emits_trimmed_stdout_literal gitStub ""
    ⟨true, some 0, [0x61, 0x62, 0x63, 0x0A], []⟩
    ⟨true, some 0, [0x61, 0x62, 0x63, 0x0A], []⟩
    "abc\n" "abc\n" rfl rfl rfl (by decide) rfl rfl rfl (by decide)

/-- C2: each entry point trims its stringified input, substitutes `HEAD`
for an empty result, and consults the tool at exactly the argument list
`["rev-parse", revision]` (full) resp. `["rev-parse", "--short", revision]`
(short): two tools agreeing there produce the same expansion. -/
theorem C2_invocation_argument_lists (g g2 : Git) (input : String)
    (hF : g ["rev-parse", if strTrim input = "" then "HEAD" else strTrim input]
        = g2 ["rev-parse", if strTrim input = "" then "HEAD" else strTrim input])
    (hS : g ["rev-parse", "--short", if strTrim input = "" then "HEAD" else strTrim input]
        = g2 ["rev-parse", "--short", if strTrim input = "" then "HEAD" else strTrim input]) :
    git_hash g input = git_hash g2 input ∧
    git_short_hash g input = git_short_hash g2 input := by
  constructor
  · have he : run_git g ["rev-parse", if strTrim input = "" then "HEAD" else strTrim input]
        = run_git g2 ["rev-parse", if strTrim input = "" then "HEAD" else strTrim input] := by
      unfold run_git
      rw [hF]
    rw [git_hash_eq, git_hash_eq, he]
  · have he : run_git g ["rev-parse", "--short", if strTrim input = "" then "HEAD" else strTrim input]
        = run_git g2 ["rev-parse", "--short", if strTrim input = "" then "HEAD" else strTrim input] := by
      unfold run_git
      rw [hS]
    rw [git_short_hash_eq, git_short_hash_eq, he]

/-- C2 witness: two oracles that differ on the argument list `["other"]`
but agree on the `rev-parse` lists give identical expansions on the
whitespace-only input `" "`. -/
theorem C2_witness :
    git_hash gitStub " " = git_hash gitStubAlt " " ∧
    git_short_hash gitStub " " = git_short_hash gitStubAlt " " :=
  C2_invocation_argument_lists gitStub gitStubAlt " " rfl rfl

/-- C7: an absent (empty) or whitespace-only argument expands exactly as
the argument `HEAD` does, whatever the tool's behaviour. -/
theorem C7_blank_defaults_to_head (g : Git) (input : String)
    (h : strTrim input = "") :
    git_hash g input = git_hash g "HEAD" ∧
    git_short_hash g input = git_short_hash g "HEAD" := by
  have hne : ¬ (("HEAD" : String) = "") := by decide
  constructor
  · rw [git_hash_eq, git_hash_eq, h]
    rw [show strTrim "HEAD" = "HEAD" from rfl]
    rw [if_pos rfl, if_neg hne]
  · rw [git_short_hash_eq, git_short_hash_eq, h]
    rw [show strTrim "HEAD" = "HEAD" from rfl]
    rw [if_pos rfl, if_neg hne]

/-- C7 witness: the whitespace-only input `"  "` and the input `"HEAD"`
agree on a concrete oracle. -/
theorem C7_witness :
    git_hash gitStub "  " = git_hash gitStub "HEAD" ∧
    git_short_hash gitStub "  " = git_short_hash gitStub "HEAD" :=
  C7_blank_defaults_to_head gitStub "  " rfl

/-- C9: each expansion is a pure function of the input token text and the
tool's responses: identical input and identical responses give identical
token output, with no other state consulted. -/
theorem C9_deterministic (g g2 : Git) (i i2 : String)
    (hi : i = i2) (hg : ∀ args, g args = g2 args) :
    git_hash g i = git_hash g2 i2 ∧ git_short_hash g i = git_short_hash g2 i2 := by
  subst hi
  have hg2 : g = g2 := funext hg
  subst hg2
  exact ⟨rfl, rfl⟩

/-- C9 witness: two syntactically different but pointwise-equal oracles give
identical expansions. -/
theorem C9_witness :
    git_hash gitStub "" = git_hash gitStubEta "" ∧
    git_short_hash gitStub "" = git_short_hash gitStubEta "" :=
  C9_deterministic gitStub gitStubEta "" "" rfl (fun _ => rfl)

/-- C3 counterexample: on a non-zero exit whose stderr is `"a\"b"` (valid
UTF-8 containing a double quote), the formatted diagnostic fails to lex, so
`run_git` does not return the stated build diagnostic: the `.expect` at
`src/lib.rs` line 32 aborts inside it — a crash, not a diagnostic. -/
theorem C3_counterexample :
    run_git gitBadStderr ["rev-parse", "HEAD"] =
      .error (MacroOut.panic "To generate compile error") := by
  rfl

/-- C3 (amended): `run_git` returns Ok with the decoded stdout iff the
process spawned, exited zero, and stdout was valid UTF-8; each failure mode
hands `compile_error` the stated message (spawn-error text; exit code with
`1` as default plus stderr text with the `<invalid utf-8>` placeholder;
decoding-error text), and the diagnostic is actually formed — rather than
the formatting aborting — whenever that message contains no double quote,
backslash or carriage return. -/
theorem C3_run_git_classification (g : Git) (args : List String) :
    (∀ s, run_git g args = .ok s ↔
      ∃ out, g args = .ok out ∧ out.success = true ∧ decodeStr out.stdout = some s) ∧
    (∀ e, g args = .err e →
      run_git g args = .error (compile_error ("git execution error: " ++ e))) ∧
    (∀ out, g args = .ok out → out.success = false →
      run_git g args = .error (compile_error ("git failed with status " ++
        toString (out.code.getD 1) ++ ":\n " ++ (decodeStr out.stderr).getD "<invalid utf-8>"))) ∧
    (∀ out, g args = .ok out → out.success = true → decodeStr out.stdout = none →
      run_git g args = .error (compile_error ("git output is not valid utf-8: " ++
        utf8ErrorText out.stdout))) ∧
    (∀ m, (∀ c ∈ m.data, c ≠ '"' ∧ c ≠ '\\' ∧ c ≠ '\r') →
      compile_error m = .tokens (directiveText m)) := by
  refine ⟨run_git_ok_iff g args, ?_, ?_, ?_, compile_error_clean⟩
  · intro e he
    unfold run_git
    rw [he]
  · intro out ho hs
    unfold run_git
    rw [ho]
    simp only [hs]
  · intro out ho hs hd
    unfold run_git
    rw [ho]
    simp only [hs, hd]

/-- C3 witness: a spawn failure with io-error text `"boom"` yields exactly
the spawn diagnostic, and that diagnostic is a formed directive. -/
theorem C3_witness :
    run_git gitSpawnFail ["rev-parse", "HEAD"] =
      .error (compile_error ("git execution error: " ++ "boom")) ∧
    compile_error ("git execution error: " ++ "boom") =
      .tokens (directiveText ("git execution error: " ++ "boom")) :=
  ⟨(C3_run_git_classification gitSpawnFail ["rev-parse", "HEAD"]).2.1 "boom" rfl,
   (C3_run_git_classification gitSpawnFail ["rev-parse", "HEAD"]).2.2.2.2
     ("git execution error: " ++ "boom") (by decide)⟩

/-- C6 counterexample: with a non-zero exit and stderr `"a\"b"`, no
diagnostic token stream is ever formed — the expansion's outcome is the
abort raised at `src/lib.rs` line 32, so nothing is propagated verbatim. -/
theorem C6_counterexample :
    git_hash gitBadStderr "" = MacroOut.panic "To generate compile error" := by
  rfl

/-- C6 (amended): whenever `run_git` fails, each entry point's entire
output is exactly `run_git`'s error value — the formed directive verbatim
when the diagnostic's message lexes, otherwise the propagated abort — and
in neither case a quoted string-literal constant: no empty, default, or
fallback value is synthesized. -/
theorem C6_failure_propagates_verbatim (g : Git) (input : String) (e eS : MacroOut)
    (hF : run_git g ["rev-parse", if strTrim input = "" then "HEAD" else strTrim input]
        = .error e)
    (hS : run_git g ["rev-parse", "--short", if strTrim input = "" then "HEAD" else strTrim input]
        = .error eS) :
    (git_hash g input = e ∧ ∀ s, git_hash g input ≠ .tokens ("\"" ++ s ++ "\"")) ∧
    (git_short_hash g input = eS ∧ ∀ s, git_short_hash g input ≠ .tokens ("\"" ++ s ++ "\"")) := by
  have h1 : git_hash g input = e := by
    rw [git_hash_eq, hF]
  have h2 : git_short_hash g input = eS := by
    rw [git_short_hash_eq, hS]
  obtain ⟨m, hm⟩ := run_git_error_shape g _ e hF
  obtain ⟨mS, hmS⟩ := run_git_error_shape g _ eS hS
  refine ⟨⟨h1, ?_⟩, ⟨h2, ?_⟩⟩
  · intro s
    rw [h1, hm]
    exact compile_error_ne_tokens_lit m s
  · intro s
    rw [h2, hmS]
    exact compile_error_ne_tokens_lit mS s

/-- C6 witness: with a failing spawn, both expansions are exactly the spawn
diagnostic and differ from a sample quoted literal. -/
theorem C6_witness :
    (git_hash gitSpawnFail "" = compile_error ("git execution error: " ++ "boom") ∧
      git_hash gitSpawnFail "" ≠ .tokens ("\"" ++ "abc" ++ "\"")) ∧
    (git_short_hash gitSpawnFail "" = compile_error ("git execution error: " ++ "boom") ∧
      git_short_hash gitSpawnFail "" ≠ .tokens ("\"" ++ "abc" ++ "\"")) := by
  have h := C6_failure_propagates_verbatim gitSpawnFail ""
    (compile_error ("git execution error: " ++ "boom"))
    (compile_error ("git execution error: " ++ "boom")) rfl rfl
  exact ⟨⟨h.1.1, h.1.2 "abc"⟩, ⟨h.2.1, h.2.2 "abc"⟩⟩

/-- C5 counterexample: `compile_error` performs no escaping, so for the
message `a"b` (which contains a double quote) the directive text's syntax
is corrupted — it does not parse back as `compile_error!(` plus one string
literal plus `)` — and the real function aborts in its `.expect` instead of
producing a directive. -/
theorem C5_counterexample :
    directiveText "a\"b" = "compile_error!(\"a\"b\")" ∧
    parseDirective (directiveText "a\"b") = none ∧
    compile_error "a\"b" = MacroOut.panic "To generate compile error" := by
  exact ⟨rfl, rfl, rfl⟩

/-- C5 (amended): the error reporter wraps the message verbatim with no
escaping of quote characters; only for messages containing no double quote,
no backslash and no carriage return is the directive formed at all, and
then its syntax is intact, parsing back to exactly the message. -/
theorem C5_no_escaping_roundtrip (m : String)
    (h : ∀ c ∈ m.data, c ≠ '"' ∧ c ≠ '\\' ∧ c ≠ '\r') :
    compile_error m = .tokens (directiveText m) ∧
    parseDirective (directiveText m) = some m :=
  ⟨compile_error_clean m h, parseDirective_clean m h⟩

/-- C5 witness: a representative clean message is formed and round-trips. -/
theorem C5_witness :
    compile_error "git execution error: boom"
      = .tokens (directiveText "git execution error: boom") ∧
    parseDirective (directiveText "git execution error: boom")
      = some "git execution error: boom" :=
  C5_no_escaping_roundtrip "git execution error: boom" (by decide)

/-- C4 counterexample: a successful git output consisting of a single
newline yields the constant `""`: the expansion succeeds with the empty
string literal, so the non-emptiness invariant fails for this possible
successful output. -/
theorem C4_counterexample :
    git_hash gitNewlineOnly "" = MacroOut.tokens "\"\"" ∧
    parseQuotedLit "\"\"" = some "" := by
  exact ⟨rfl, rfl⟩

/-- C4 (amended): the entry points enforce nothing beyond trimming, so the
generated constant is non-empty, newline-free and a well-formed quoted
literal with exactly the trimmed stdout as content only when the trimmed
decoded stdout is itself non-empty and free of newlines, carriage returns,
quotes and backslashes; outside that region the expansion emits an empty
or newline-carrying constant, or aborts. -/
theorem C4_constant_invariant_for_clean_outputs (g : Git) (input : String)
    (out outS : ProcessOutput) (s sS : String)
    (hF : g ["rev-parse", if strTrim input = "" then "HEAD" else strTrim input] = .ok out)
    (hFs : out.success = true) (hFd : decodeStr out.stdout = some s)
    (hS : g ["rev-parse", "--short", if strTrim input = "" then "HEAD" else strTrim input] = .ok outS)
    (hSs : outS.success = true) (hSd : decodeStr outS.stdout = some sS)
    (hne : strTrim s ≠ "")
    (hcl : ∀ c ∈ (strTrim s).data, c ≠ '\n' ∧ c ≠ '\r' ∧ c ≠ '"' ∧ c ≠ '\\')
    (hneS : strTrim sS ≠ "")
    (hclS : ∀ c ∈ (strTrim sS).data, c ≠ '\n' ∧ c ≠ '\r' ∧ c ≠ '"' ∧ c ≠ '\\') :
    (git_hash g input = .tokens ("\"" ++ strTrim s ++ "\"") ∧
      parseQuotedLit ("\"" ++ strTrim s ++ "\"") = some (strTrim s) ∧
      strTrim s ≠ "" ∧ ∀ c ∈ (strTrim s).data, c ≠ '\n') ∧
    (git_short_hash g input = .tokens ("\"" ++ strTrim sS ++ "\"") ∧
      parseQuotedLit ("\"" ++ strTrim sS ++ "\"") = some (strTrim sS) ∧
      strTrim sS ≠ "" ∧ ∀ c ∈ (strTrim sS).data, c ≠ '\n') := by
  constructor
  · refine ⟨?_, ?_, hne, fun c hc => (hcl c hc).1⟩
    · exact git_hash_tokens g input out s hF hFs hFd
        (fun c hc => ⟨(hcl c hc).2.2.1, (hcl c hc).2.2.2, (hcl c hc).2.1⟩)
    · exact parseQuotedLit_clean _
        (fun c hc => ⟨(hcl c hc).2.2.1, (hcl c hc).2.2.2, (hcl c hc).2.1⟩)
  · refine ⟨?_, ?_, hneS, fun c hc => (hclS c hc).1⟩
    · exact git_short_hash_tokens g input outS sS hS hSs hSd
        (fun c hc => ⟨(hclS c hc).2.2.1, (hclS c hc).2.2.2, (hclS c hc).2.1⟩)
    · exact parseQuotedLit_clean _
        (fun c hc => ⟨(hclS c hc).2.2.1, (hclS c hc).2.2.2, (hclS c hc).2.1⟩)

/-- C4 witness: stdout `"abc\n"` gives the non-empty, newline-free,
well-formed constant `"abc"`. -/
theorem C4_witness :
    (git_hash gitStub "" = .tokens ("\"" ++ strTrim "abc\n" ++ "\"") ∧
      parseQuotedLit ("\"" ++ strTrim "abc\n" ++ "\"") = some (strTrim "abc\n") ∧
      strTrim "abc\n" ≠ "" ∧ ∀ c ∈ (strTrim "abc\n").data, c ≠ '\n') ∧
    (git_short_hash gitStub "" = .tokens ("\"" ++ strTrim "abc\n" ++ "\"") ∧
      parseQuotedLit ("\"" ++ strTrim "abc\n" ++ "\"") = some (strTrim "abc\n") ∧
      strTrim "abc\n" ≠ "" ∧ ∀ c ∈ (strTrim "abc\n").data, c ≠ '\n') :=
  C4_constant_invariant_for_clean_outputs gitStub ""
    ⟨true, some 0, [0x61, 0x62, 0x63, 0x0A], []⟩
    ⟨true, some 0, [0x61, 0x62, 0x63, 0x0A], []⟩
    "abc\n" "abc\n" rfl rfl rfl rfl rfl rfl
    (by decide) (by decide) (by decide) (by decide)

/-- C8: when both invocations for the same revision succeed with hash-like
content (free of quotes, backslashes and carriage returns, as every hex
hash is) and the tool's trimmed short output is a non-empty prefix of its
trimmed full output (the external tool's contract for `rev-parse --short`),
the constant produced by `git_short_hash` is exactly that non-empty prefix
of the constant produced by `git_hash`. -/
theorem C8_short_prefix_of_full (g : Git) (R : String)
    (out outS : ProcessOutput) (f s : String)
    (hF : g ["rev-parse", if strTrim R = "" then "HEAD" else strTrim R] = .ok out)
    (hFs : out.success = true) (hFd : decodeStr out.stdout = some f)
    (hS : g ["rev-parse", "--short", if strTrim R = "" then "HEAD" else strTrim R] = .ok outS)
    (hSs : outS.success = true) (hSd : decodeStr outS.stdout = some s)
    (hcf : ∀ c ∈ (strTrim f).data, c ≠ '"' ∧ c ≠ '\\' ∧ c ≠ '\r')
    (hcs : ∀ c ∈ (strTrim s).data, c ≠ '"' ∧ c ≠ '\\' ∧ c ≠ '\r')
    (hne : strTrim s ≠ "")
    (hp : (strTrim s).data.isPrefixOf (strTrim f).data = true) :
    git_short_hash g R = .tokens ("\"" ++ strTrim s ++ "\"") ∧
    git_hash g R = .tokens ("\"" ++ strTrim f ++ "\"") ∧
    strTrim s ≠ "" ∧
    (strTrim s).data.isPrefixOf (strTrim f).data = true :=
  ⟨git_short_hash_tokens g R outS s hS hSs hSd hcs,
   git_hash_tokens g R out f hF hFs hFd hcf,
   hne, hp⟩

/-- C8 witness: with short output `"ab\n"` and full output `"abcdef\n"`,
the short constant's content `ab` is a non-empty prefix of `abcdef`. -/
theorem C8_witness :
    git_short_hash gitHashPair "HEAD" = .tokens ("\"" ++ strTrim "ab\n" ++ "\"") ∧
    git_hash gitHashPair "HEAD" = .tokens ("\"" ++ strTrim "abcdef\n" ++ "\"") ∧
    strTrim "ab\n" ≠ "" ∧
    (strTrim "ab\n").data.isPrefixOf (strTrim "abcdef\n").data = true :=
  C8_short_prefix_of_full gitHashPair "HEAD"
    ⟨true, some 0, [0x61, 0x62, 0x63, 0x64, 0x65, 0x66, 0x0A], []⟩
    ⟨true, some 0, [0x61, 0x62, 0x0A], []⟩
    "abcdef\n" "ab\n" rfl rfl rfl rfl rfl rfl
    (by decide) (by decide) (by decide) (by decide)

/-- C10 counterexample: the trimmed stdout `a`, carriage return, `b`
contains no double quote and no backslash, yet the success-path parse fails
on the bare carriage return and the `.expect("generate hash string")`
branch is reached: the claimed precondition does not make the panic branch
unreachable. -/
theorem C10_counterexample :
    '"' ∉ (strTrim "a\rb\n").data ∧
    '\\' ∉ (strTrim "a\rb\n").data ∧
    git_hash gitCrOut "" = MacroOut.panic "generate hash string" := by
  exact ⟨by decide, by decide, rfl⟩

/-- C10 (amended): on a successful expansion whose trimmed decoded stdout
contains no double quote, no backslash and no carriage return, the final
token-stream parse of the emitted literal succeeds for both entry points,
so the `.expect("generate hash string")` branch is unreachable there;
symmetrically, the `.expect` in `compile_error` succeeds for messages free
of those characters. -/
theorem C10_expect_branches_unreachable (g : Git) (input : String)
    (out outS : ProcessOutput) (s sS m : String)
    (hF : g ["rev-parse", if strTrim input = "" then "HEAD" else strTrim input] = .ok out)
    (hFs : out.success = true) (hFd : decodeStr out.stdout = some s)
    (hFc : ∀ c ∈ (strTrim s).data, c ≠ '"' ∧ c ≠ '\\' ∧ c ≠ '\r')
    (hS : g ["rev-parse", "--short", if strTrim input = "" then "HEAD" else strTrim input] = .ok outS)
    (hSs : outS.success = true) (hSd : decodeStr outS.stdout = some sS)
    (hSc : ∀ c ∈ (strTrim sS).data, c ≠ '"' ∧ c ≠ '\\' ∧ c ≠ '\r')
    (hm : ∀ c ∈ m.data, c ≠ '"' ∧ c ≠ '\\' ∧ c ≠ '\r') :
    MacroOut.isPanic (git_hash g input) = false ∧
    MacroOut.isPanic (git_short_hash g input) = false ∧
    MacroOut.isPanic (compile_error m) = false := by
  rw [git_hash_tokens g input out s hF hFs hFd hFc,
    git_short_hash_tokens g input outS sS hS hSs hSd hSc,
    compile_error_clean m hm]
  exact ⟨rfl, rfl, rfl⟩

/-- C10 witness: with stdout `"abc\n"` (both forms) and message `"x"`, no
`.expect` branch is reached. -/
theorem C10_witness :
    MacroOut.isPanic (git_hash gitStub "") = false ∧
    MacroOut.isPanic (git_short_hash gitStub "") = false ∧
    MacroOut.isPanic (compile_error "x") = false :=
  C10_expect_branches_unreachable gitStub ""
    ⟨true, some 0, [0x61, 0x62, 0x63, 0x0A], []⟩
    ⟨true, some 0, [0x61, 0x62, 0x63, 0x0A], []⟩
    "abc\n" "abc\n" "x" rfl rfl rfl (by decide) rfl rfl rfl (by decide) (by decide)
